import Mathlib

/-
  Verification development for the JobBoardPortal repository.

  Shallow embedding of the RBAC and alert-notification core:
    - jobs/signals.py        (check_job_alerts, send_job_alert_notification)
    - jobs/views.py          (JobUpdateView, apply_for_job, NotificationListView,
                              mark_notification_read)
    - jobs/admin.py          (JobAdmin, ApplicationAdmin permission methods)
    - admin.py               (setup_employer_permissions)
    - accounts/mixins.py     (EmployerRequiredMixin, employer_required, ...)
    - jobs/forms.py          (JobForm.clean_deadline)
    - jobs/models.py         (Job, Application, JobAlert, JobAlertNotification)

  Strings are modelled as List Char; Python case-insensitive substring tests
  (x.lower() in y.lower(), Django icontains) are modelled by lowering both
  sides with Char.toLower and checking contiguous-sublist containment.
-/

namespace JobBoard

/-- Lowercase a string, modelling Python str.lower / the case folding done by
Django icontains. -/
def lowerStr (s : List Char) : List Char := s.map Char.toLower

/-- needle occurs at the start of haystack (first argument is the needle). -/
def beginsWith : List Char → List Char → Bool
  | [], _ => true
  | _ :: _, [] => false
  | a :: as, b :: bs => a == b && beginsWith as bs

/-- needle occurs as a contiguous substring of haystack
(first argument is the needle, second the haystack). -/
def containsSeq : List Char → List Char → Bool
  | needle, [] => needle.isEmpty
  | needle, c :: rest => beginsWith needle (c :: rest) || containsSeq needle rest

/-- Python "needle.lower() in haystack.lower()" (and Django icontains):
case-insensitive substring test.  Argument order: haystack, then needle. -/
def icontains (haystack needle : List Char) : Bool :=
  containsSeq (lowerStr needle) (lowerStr haystack)

/-- Helper for splitWs: accumulates the current token (reversed). -/
def splitWsAux : List Char → List Char → List (List Char)
  | [], cur => if cur.isEmpty then [] else [cur.reverse]
  | c :: cs, cur =>
    if c.isWhitespace then
      if cur.isEmpty then splitWsAux cs [] else cur.reverse :: splitWsAux cs []
    else splitWsAux cs (c :: cur)

/-- Python str.split() with no argument: split on runs of whitespace,
discarding empty tokens.  (The list comprehension in signals.py additionally
calls .strip() on each token; tokens produced by split() contain no
whitespace, so that strip is the identity and is not modelled.) -/
def splitWs (s : List Char) : List (List Char) := splitWsAux s []

/-- companies/models.py Company: only the fields the core reads. -/
structure Company where
  id : Nat
  name : List Char
  user : Nat
deriving DecidableEq, Repr

/-- Python datetime.date, ordered lexicographically. -/
structure PyDate where
  year : Nat
  month : Nat
  day : Nat
deriving DecidableEq, Repr

/-- Strict comparison of Python dates. -/
def dateLt (a b : PyDate) : Bool :=
  a.year < b.year
    || (a.year == b.year
        && (a.month < b.month || (a.month == b.month && a.day < b.day)))

/-- Non-strict comparison of Python dates. -/
def dateLe (a b : PyDate) : Bool := dateLt a b || a == b

/-- jobs/models.py Job: the fields read by the core (alert matching,
ownership checks, is_active). -/
structure Job where
  id : Nat
  company : Company
  title : List Char
  description : List Char
  location : List Char
  deadline : PyDate
deriving DecidableEq, Repr

/-- jobs/models.py Job.is_active: deadline strictly after today. -/
def jobIsActive (j : Job) (today : PyDate) : Bool := dateLt today j.deadline

/-- jobs/models.py JobAlert. -/
structure JobAlert where
  id : Nat
  user : Nat
  keyword : List Char
  location : List Char
deriving DecidableEq, Repr

/-- jobs/models.py JobAlertNotification.  The primary key of rows created by
the fan-out is assigned by the store and does not affect any claim; the
constructor in mkNotification uses 0. -/
structure JobAlertNotification where
  id : Nat
  user : Nat
  job : Nat
  job_alert : Nat
  message : List Char
  is_read : Bool
deriving DecidableEq, Repr

/-- jobs/models.py Application: job and applicant plus form fields.
The ORM row holds a foreign key; here the loaded Job object is embedded,
matching how admin.py and views.py navigate application.job.company.user. -/
structure Application where
  id : Nat
  job : Job
  applicant : Nat
  resume : List Char
  cover_letter : List Char
  status : List Char
deriving DecidableEq, Repr

/-! ## Alert Matching Engine (jobs/signals.py) -/

/-- The candidate set all_matches built in check_job_alerts (lines 25-43):
the union (with distinct()) of
  matching_alerts  = JobAlert.filter(keyword icontains job.title)
                             .filter(location icontains job.location),
  keyword_matches  = JobAlert.filter(keyword icontains job.title)
                   | JobAlert.filter(keyword in job.title.split() tokens),
  location_matches = JobAlert.filter(location icontains job.location).
Note the direction: keyword icontains job.title asks whether the ALERT
KEYWORD contains the whole job title as a substring.  The keyword-in-tokens
lookup is exact equality (SQL IN over the token list; binary collation,
hence the case-sensitive list equality here). -/
def inAllMatches (alert : JobAlert) (job : Job) : Bool :=
  (icontains alert.keyword job.title && icontains alert.location job.location)
    || (icontains alert.keyword job.title
        || (splitWs job.title).contains alert.keyword)
    || icontains alert.location job.location

/-- The in-loop keyword check of check_job_alerts (lines 50-54):
alert.keyword.lower() in job.title.lower()
  or alert.keyword.lower() in job.description.lower()
  or any(word.lower() in job.title.lower() for word in alert.keyword.split()). -/
def keywordMatch (alert : JobAlert) (job : Job) : Bool :=
  icontains job.title alert.keyword
    || icontains job.description alert.keyword
    || (splitWs alert.keyword).any (fun w => icontains job.title w)

/-- The in-loop location check of check_job_alerts (lines 56-59):
alert.location.lower() in job.location.lower()
  or job.location.lower() in alert.location.lower(). -/
def locationMatch (alert : JobAlert) (job : Job) : Bool :=
  icontains job.location alert.location || icontains alert.location job.location

/-- Fault oracles for the fan-out, keyed by alert id: evalFails models an
exception raised inside the per-alert try block before the notification is
created; createFails models JobAlertNotification.objects.create raising
(caught inside send_job_alert_notification, which then returns False);
emailHostConfigured and userEmail model the guard
hasattr(settings, EMAIL_HOST) and alert.user.email; emailSendFails models a
failure of send_mail (swallowed: fail_silently=True plus its own except). -/
structure FaultModel where
  evalFails : Nat → Bool
  createFails : Nat → Bool
  emailHostConfigured : Bool
  userEmail : Nat → Bool
  emailSendFails : Nat → Bool

/-- The no-failure instantiation: every alert evaluates and persists cleanly. -/
def noFault : FaultModel :=
  ⟨fun _ => false, fun _ => false, true, fun _ => true, fun _ => false⟩

/-- signals.py send_job_alert_notification: creates the in-app notification
(message templated from job title/company/location), then best-effort email.
Returns the created notification (none if the create raised) and whether an
email went out; the email outcome never affects the notification. -/
def send_job_alert_notification (fm : FaultModel) (alert : JobAlert) (job : Job) :
    Option JobAlertNotification × Bool :=
  if fm.createFails alert.id then (none, false)
  else
    let message :=
      ("New job alert match: ").toList ++ job.title ++ (" at ").toList
        ++ job.company.name ++ (" in ").toList ++ job.location
    let notif : JobAlertNotification :=
      { id := 0, user := alert.user, job := job.id, job_alert := alert.id
        message := message, is_read := false }
    let emailSent :=
      if fm.emailHostConfigured && fm.userEmail alert.user then
        !fm.emailSendFails alert.id
      else false
    (some notif, emailSent)

/-- One iteration of the for-loop in check_job_alerts (lines 47-67): the
whole body runs inside try/except, so a per-alert failure yields nothing
and processing continues with the next alert. -/
def processAlert (fm : FaultModel) (job : Job) (alert : JobAlert) :
    Option JobAlertNotification :=
  if fm.evalFails alert.id then none
  else if keywordMatch alert job && locationMatch alert job then
    (send_job_alert_notification fm alert job).1
  else none

/-- signals.py check_job_alerts, the post_save receiver for Job: returns the
list of JobAlertNotification rows created.  Bails out when the save is not a
creation; otherwise iterates over the all_matches candidate subset of the
alert table and applies the in-loop predicate to each candidate. -/
def check_job_alerts (fm : FaultModel) (created : Bool)
    (alerts : List JobAlert) (job : Job) : List JobAlertNotification :=
  if !created then []
  else (alerts.filter (fun a => inAllMatches a job)).filterMap (processAlert fm job)

/-- Modelled from the spec (section 4.4, full-scan contract): evaluate the
match predicate against the full set of JobAlert subscriptions and emit
exactly one notification per satisfying alert, with no candidate pre-filter. -/
def on_job_created_specFullScan (fm : FaultModel) (alerts : List JobAlert)
    (job : Job) : List JobAlertNotification :=
  alerts.filterMap (fun a =>
    if keywordMatch a job && locationMatch a job then
      (send_job_alert_notification fm a job).1
    else none)

/-! ## Identity, roles and model-level permissions
(accounts/models.py UserProfile, accounts/mixins.py, admin.py) -/

/-- accounts/models.py UserProfile: user_type is a free-form stored string
(role tag), compared against the literals in the code. -/
structure UserProfile where
  user_type : List Char
deriving DecidableEq, Repr

/-- django.contrib.auth User, restricted to the fields the core reads.
userprofile = none models a User for which hasattr(user, userprofile) is
False.  groups holds group names; the repository assigns model permissions
only through the Employers group (admin.py), so a user's permission set is
derived from is_superuser and that membership. -/
structure User where
  id : Nat
  is_authenticated : Bool
  is_active : Bool
  is_superuser : Bool
  userprofile : Option UserProfile
  groups : List (List Char)
deriving DecidableEq, Repr

/-- hasattr(user, userprofile) and user.userprofile.user_type == given tag. -/
def hasProfileType (u : User) (tag : List Char) : Bool :=
  match u.userprofile with
  | some p => p.user_type == tag
  | none => false

/-- accounts/mixins.py is_employer-style check used by the admin classes:
the user has a profile whose user_type is the employer tag. -/
def isEmployerUser (u : User) : Bool := hasProfileType u (("employer").toList)

/-- The model permissions granted to the Employers group by
setup_employer_permissions in admin.py (lines 96-112): full CRUD on Company
and Job, but only view and change on Application — no delete_application. -/
def employersGroupPerms : List (List Char) :=
  [("companies.view_company").toList,
   ("companies.add_company").toList,
   ("companies.change_company").toList,
   ("companies.delete_company").toList,
   ("jobs.view_job").toList,
   ("jobs.add_job").toList,
   ("jobs.change_job").toList,
   ("jobs.delete_job").toList,
   ("jobs.view_application").toList,
   ("jobs.change_application").toList]

/-- django ModelBackend semantics of user.has_perm: inactive users have no
permissions; active superusers have every permission; otherwise permissions
come from group membership, and in this repository the only permission-
bearing group is Employers (populated by setup_employer_permissions). -/
def has_perm (u : User) (perm : List Char) : Bool :=
  u.is_active
    && (u.is_superuser
        || (u.groups.contains (("Employers").toList)
            && employersGroupPerms.contains perm))

/-! ## Object-level authorization (jobs/admin.py, jobs/views.py) -/

/-- jobs/admin.py JobAdmin.get_queryset (lines 71-80): non-superuser
employers see only jobs of their own company; everyone else sees the full
table.  Returns whether the given job is visible to the user. -/
def jobAdmin_in_queryset (u : User) (j : Job) : Bool :=
  if isEmployerUser u && !u.is_superuser then j.company.user == u.id else true

/-- jobs/admin.py JobAdmin.has_change_permission (lines 89-94): an employer
editing a job of their own company is allowed outright; otherwise Django's
default object permission applies, i.e. user.has_perm(jobs.change_job). -/
def jobAdmin_has_change_permission (u : User) (j : Job) : Bool :=
  (isEmployerUser u && u.id == j.company.user)
    || has_perm u (("jobs.change_job").toList)

/-- The effective admin decision for changing a specific job: the admin
change view fetches the object through get_queryset and then consults
has_change_permission, so editing requires both. -/
def jobAdmin_change_allowed (u : User) (j : Job) : Bool :=
  jobAdmin_in_queryset u j && jobAdmin_has_change_permission u j

/-- jobs/views.py JobUpdateView.get_queryset (lines 120-122):
Job.objects.filter(company__user=request.user); returns whether the given
job is reachable (a job outside the queryset yields 404). -/
def jobUpdateView_in_queryset (u : User) (j : Job) : Bool :=
  j.company.user == u.id

/-- jobs/admin.py ApplicationAdmin.has_view_permission (lines 180-185):
an employer viewing an application for a job of their own company is allowed
outright; otherwise user.has_perm(jobs.view_application). -/
def applicationAdmin_has_view_permission (u : User) (a : Application) : Bool :=
  (isEmployerUser u && u.id == a.job.company.user)
    || has_perm u (("jobs.view_application").toList)

/-- jobs/admin.py ApplicationAdmin.has_change_permission (lines 187-192). -/
def applicationAdmin_has_change_permission (u : User) (a : Application) : Bool :=
  (isEmployerUser u && u.id == a.job.company.user)
    || has_perm u (("jobs.change_application").toList)

/-- jobs/admin.py ApplicationAdmin.has_delete_permission (lines 194-196):
no employer-owner branch — it delegates straight to Django's default,
user.has_perm(jobs.delete_application), a permission the Employers group is
never granted. -/
def applicationAdmin_has_delete_permission (u : User) (_a : Application) : Bool :=
  has_perm u (("jobs.delete_application").toList)

/-! ## Route-level gating (accounts/mixins.py) -/

/-- Outcome of a route-level gate. -/
inductive RouteOutcome
  | allowed
  | requireLogin
  | forbidden
deriving DecidableEq, Repr

/-- accounts/mixins.py EmployerRequiredMixin.dispatch (lines 13-22):
unauthenticated users get handle_no_permission (LoginRequiredMixin redirects
to the login page); authenticated users without an employer profile get
PermissionDenied; employers fall through to the view. -/
def employerRequiredMixin_dispatch (u : User) : RouteOutcome :=
  if !u.is_authenticated then .requireLogin
  else if !(hasProfileType u (("employer").toList)) then .forbidden
  else .allowed

/-- accounts/mixins.py JobSeekerRequiredMixin.dispatch (lines 31-40). -/
def jobSeekerRequiredMixin_dispatch (u : User) : RouteOutcome :=
  if !u.is_authenticated then .requireLogin
  else if !(hasProfileType u (("jobseeker").toList)) then .forbidden
  else .allowed

/-- accounts/mixins.py employer_required decorator (lines 43-57):
unauthenticated users are redirected to accounts:login; authenticated users
without an employer profile get PermissionDenied. -/
def employer_required_gate (u : User) : RouteOutcome :=
  if !u.is_authenticated then .requireLogin
  else if !(hasProfileType u (("employer").toList)) then .forbidden
  else .allowed

/-- accounts/mixins.py jobseeker_required decorator (lines 60-74). -/
def jobseeker_required_gate (u : User) : RouteOutcome :=
  if !u.is_authenticated then .requireLogin
  else if !(hasProfileType u (("jobseeker").toList)) then .forbidden
  else .allowed

/-- The two roles of the spec (section 3, Profile.role). -/
inductive Role
  | employer
  | jobseeker
deriving DecidableEq, Repr

/-- Modelled from the spec (section 4.1): role() returns one of the two role
tags, or none when the Profile is missing or carries an unknown tag. -/
def roleOfSpec (u : User) : Option Role :=
  match u.userprofile with
  | none => none
  | some p =>
    if p.user_type == (("employer").toList) then some .employer
    else if p.user_type == (("jobseeker").toList) then some .jobseeker
    else none

/-- Modelled from the spec (sections 4.3 and 6): authorize_route(user,
required_role) — unauthenticated gives RequireLogin, authenticated with a
role other than the required one gives Forbidden, otherwise Allowed. -/
def authorize_route_spec (u : User) (required : Role) : RouteOutcome :=
  if !u.is_authenticated then .requireLogin
  else if !(roleOfSpec u == some required) then .forbidden
  else .allowed

/-! ## Notification store (jobs/views.py lines 244-267) -/

/-- jobs/views.py NotificationListView.get_queryset (lines 251-252):
the notifications shown are those owned by the requesting user. -/
def notificationList_get_queryset (db : List JobAlertNotification) (u : Nat) :
    List JobAlertNotification :=
  db.filter (fun n => n.user == u)

/-- jobs/views.py NotificationListView.get_context_data (lines 254-258):
viewing the inbox runs
JobAlertNotification.objects.filter(user=user, is_read=False)
  .update(is_read=True);
the resulting table state after one view by user u. -/
def notificationList_visit (db : List JobAlertNotification) (u : Nat) :
    List JobAlertNotification :=
  db.map (fun n =>
    if n.user == u && !n.is_read then { n with is_read := true } else n)

/-- Result of mark_notification_read: Http404 from get_object_or_404 covers
both a nonexistent id and an id owned by someone else. -/
inductive MarkResult
  | success
  | notFoundOrForbidden
deriving DecidableEq, Repr

/-- The effect of notification.is_read = True; notification.save() on one
row of the table: the row selected by pk and owner is updated, any other row
is returned unchanged. -/
def markUpdate (u pk : Nat) (n : JobAlertNotification) : JobAlertNotification :=
  if n.id == pk && n.user == u then { n with is_read := true } else n

/-- jobs/views.py mark_notification_read (lines 261-267):
get_object_or_404(JobAlertNotification, pk=pk, user=request.user), then
notification.is_read = True; notification.save().  Returns the outcome and
the table state afterwards. -/
def mark_notification_read (db : List JobAlertNotification) (u : Nat)
    (pk : Nat) : MarkResult × List JobAlertNotification :=
  match db.find? (fun n => n.id == pk && n.user == u) with
  | none => (.notFoundOrForbidden, db)
  | some _ => (.success, db.map (markUpdate u pk))

/-! ## Applying for a job (jobs/views.py lines 149-188) -/

/-- Outcome of apply_for_job as surfaced to the requester. -/
inductive ApplyResult
  | notFound
  | expired
  | alreadyApplied
  | submitted
  | invalidForm
deriving DecidableEq, Repr

/-- jobs/views.py apply_for_job (POST path): get_object_or_404(Job, pk=pk);
reject when the job is no longer active; warn "already applied" when an
Application for (job, request.user) exists; otherwise validate the form and
create the Application row (status defaults to applied).  nextId stands for
the primary key the store would assign. -/
def apply_for_job (jobs : List Job) (apps : List Application) (u : Nat)
    (pk : Nat) (today : PyDate) (formValid : Bool)
    (resume cover : List Char) (nextId : Nat) :
    ApplyResult × List Application :=
  match jobs.find? (fun j => j.id == pk) with
  | none => (.notFound, apps)
  | some job =>
    if !(jobIsActive job today) then (.expired, apps)
    else if apps.any (fun a => a.job.id == job.id && a.applicant == u) then
      (.alreadyApplied, apps)
    else if formValid then
      (.submitted,
       apps ++ [{ id := nextId, job := job, applicant := u, resume := resume
                  cover_letter := cover, status := ("applied").toList }])
    else (.invalidForm, apps)

/-- The models.py invariant unique_together = [job, applicant]: no two
Application rows share the same (job id, applicant) pair. -/
def noDupApplications : List Application → Bool
  | [] => true
  | a :: rest =>
    !(rest.any (fun b => b.job.id == a.job.id && b.applicant == a.applicant))
      && noDupApplications rest

/-! ## Deadline validation (jobs/forms.py JobForm.clean_deadline) -/

/-- jobs/forms.py clean_deadline error for a non-future deadline. -/
def errDeadlinePast : List Char := ("Job deadline must be in the future.").toList

/-- jobs/forms.py clean_deadline error for a deadline beyond the cap. -/
def errDeadlineTooFar : List Char :=
  ("Job deadline cannot be more than 2 years in the future.").toList

/-- Gregorian leap-year rule as applied by Python datetime. -/
def isLeapYear (y : Nat) : Bool :=
  y % 4 == 0 && (y % 100 != 0 || y % 400 == 0)

/-- Number of days in a month, as validated by Python datetime. -/
def daysInMonth (y m : Nat) : Nat :=
  if m == 2 then (if isLeapYear y then 29 else 28)
  else if m == 4 || m == 6 || m == 9 || m == 11 then 30
  else 31

/-- Python date.replace(year=y): the month and day are kept and the
resulting date is validated; when the day is out of range for the month in
the new year (Feb 29 moved to a non-leap year), a ValueError is raised,
modelled as none. -/
def dateReplaceYear (d : PyDate) (y : Nat) : Option PyDate :=
  if d.day ≤ daysInMonth y d.month then some ⟨y, d.month, d.day⟩ else none

/-- Outcome of JobForm.clean_deadline: a cleaned value, a ValidationError
(caught by the form machinery and surfaced as a field error), or an
uncaught ValueError escaping from date.replace — the form machinery only
catches ValidationError, so this one propagates as a crash. -/
inductive CleanDeadlineResult
  | ok (d : PyDate)
  | validationError (msg : List Char)
  | valueError
deriving DecidableEq, Repr

/-- jobs/forms.py JobForm.clean_deadline (lines 66-75): reject a deadline
not strictly in the future; then compute
timezone.now().date().replace(year=year+2) — which raises ValueError when
today is Feb 29, since year+2 is never a leap year — and reject a deadline
beyond that cap. -/
def clean_deadline (today d : PyDate) : CleanDeadlineResult :=
  if dateLe d today then .validationError errDeadlinePast
  else
    match dateReplaceYear today (today.year + 2) with
    | none => .valueError
    | some maxD =>
      if dateLt maxD d then .validationError errDeadlineTooFar
      else .ok d

/-! ## Concrete inputs for the alert-matching claims -/

/-- A company record used by the concrete alert-matching scenarios. -/
def acmeCompany : Company := ⟨1, ("Acme Corp").toList, 11⟩

/-- Job whose description (not title) holds the alert keyword and whose
location strictly contains the alert location. -/
def engJob : Job :=
  { id := 1, company := acmeCompany, title := ("Software Developer").toList
    description := ("We are hiring an engineer").toList
    location := ("New York, NY").toList, deadline := ⟨2027, 1, 1⟩ }

/-- Alert keyword engineer, location NY — satisfies the in-loop predicate
against engJob but never enters the all_matches candidate set. -/
def engAlert : JobAlert := ⟨1, 7, ("engineer").toList, ("NY").toList⟩

/-- The job of the spec's own worked example (section 8). -/
def pythonJob : Job :=
  { id := 2, company := acmeCompany, title := ("Python Developer").toList
    description := ("Great role").toList
    location := ("Remote, Worldwide").toList, deadline := ⟨2027, 1, 1⟩ }

/-- The alert of the spec's own worked example (section 8). -/
def pythonAlert : JobAlert := ⟨2, 9, ("python").toList, ("Remote").toList⟩

/-- C1: the claim states check_job_alerts evaluates the match predicate
against the full set of JobAlert subscriptions and creates a notification
if and only if the predicate holds.  The code instead iterates only over the
all_matches candidate queryset, whose filters point the wrong way
(keyword icontains job.title asks whether the alert keyword contains the
whole title).  For engAlert/engJob the predicate holds (keyword in the
description, location bidirectionally contained) yet the candidate set
excludes the alert, so zero notifications are created; the spec-modelled
full scan creates exactly one.  The same happens on the spec's own
python/Remote example. -/
theorem C1_prefilter_drops_matching_alert :
    keywordMatch engAlert engJob = true
  ∧ locationMatch engAlert engJob = true
  ∧ inAllMatches engAlert engJob = false
  ∧ check_job_alerts noFault true [engAlert] engJob = []
  ∧ (on_job_created_specFullScan noFault [engAlert] engJob).length = 1
  ∧ keywordMatch pythonAlert pythonJob = true
  ∧ locationMatch pythonAlert pythonJob = true
  ∧ check_job_alerts noFault true [pythonAlert] pythonJob = []
  ∧ (on_job_created_specFullScan noFault [pythonAlert] pythonJob).length = 1 := by
  decide

/-- C5: when the Job save is not a creation (created = false), the receiver
returns immediately: no matching is performed and no notification row is
produced, for every fault model, alert table and job. -/
theorem C5_fanout_only_on_creation (fm : FaultModel) (alerts : List JobAlert)
    (job : Job) : check_job_alerts fm false alerts job = [] := rfl

/-- Helper for C6: the notification returned by a single loop iteration does
not depend on the email configuration, the user's email, or the email
outcome. -/
theorem processAlert_email_irrelevant (ev cf : Nat → Bool) (eh eh2 : Bool)
    (ue ue2 es es2 : Nat → Bool) (job : Job) (a : JobAlert) :
    processAlert ⟨ev, cf, eh, ue, es⟩ job a
      = processAlert ⟨ev, cf, eh2, ue2, es2⟩ job a := by
  simp only [processAlert, send_job_alert_notification]
  by_cases h1 : ev a.id <;> by_cases h2 : cf a.id <;> simp [h1, h2]

/-- Helper for C6: an alert whose per-alert evaluation raises contributes no
notification. -/
theorem filterMap_processAlert_allFail (cf : Nat → Bool) (eh : Bool)
    (ue es : Nat → Bool) (job : Job) (l : List JobAlert) :
    l.filterMap (processAlert ⟨fun _ => true, cf, eh, ue, es⟩ job) = [] := by
  induction l with
  | nil => rfl
  | cons x xs ih => simp [List.filterMap_cons, processAlert, ih]

/-- C6: fault isolation in the fan-out.  (1) the created in-app
notifications are unchanged under any email configuration or email-send
outcome (an email failure never undoes the notification); (2) processing a
concatenation of alert lists is the concatenation of processing each — a
failure inside one segment cannot affect another, and the fan-out always
returns normally to the triggering Job creation; (3) an alert whose
evaluation raises inside the per-alert try block produces nothing while
the function still returns. -/
theorem C6_per_alert_fault_isolation (ev cf : Nat → Bool) (eh eh2 : Bool)
    (ue ue2 es es2 : Nat → Bool) (created : Bool)
    (alerts l1 l2 : List JobAlert) (a : JobAlert) (job : Job) :
    check_job_alerts ⟨ev, cf, eh, ue, es⟩ created alerts job
      = check_job_alerts ⟨ev, cf, eh2, ue2, es2⟩ created alerts job
  ∧ check_job_alerts ⟨ev, cf, eh, ue, es⟩ true (l1 ++ l2) job
      = check_job_alerts ⟨ev, cf, eh, ue, es⟩ true l1 job
          ++ check_job_alerts ⟨ev, cf, eh, ue, es⟩ true l2 job
  ∧ check_job_alerts ⟨fun _ => true, cf, eh, ue, es⟩ true [a] job = [] := by
  refine ⟨?_, ?_, ?_⟩
  · unfold check_job_alerts
    cases created with
    | false => rfl
    | true =>
      simp only [Bool.not_true, Bool.false_eq_true, if_false]
      have hfun : processAlert ⟨ev, cf, eh, ue, es⟩ job
          = processAlert ⟨ev, cf, eh2, ue2, es2⟩ job :=
        funext (fun x => processAlert_email_irrelevant ev cf eh eh2 ue ue2 es es2 job x)
      rw [hfun]
  · simp [check_job_alerts, List.filter_append, List.filterMap_append]
  · simp [check_job_alerts, filterMap_processAlert_allFail]

/-- C2: object-level authorization for editing a Job.  In the admin the
change view reaches an object through JobAdmin.get_queryset and then asks
JobAdmin.has_change_permission, so the effective decision is their
conjunction: the owning employer E1 is allowed, a distinct (non-superuser)
employer E2 is denied because J1 is not in E2's queryset, and an active
superuser is always allowed regardless of ownership.  The front-end
JobUpdateView queryset likewise contains J1 for E1 and not for E2. -/
theorem C2_job_edit_authorization (e1 e2 s : User) (j : Job)
    (h1 : isEmployerUser e1 = true) (h2 : isEmployerUser e2 = true)
    (hown : j.company.user = e1.id) (hnot : j.company.user ≠ e2.id)
    (hns : e2.is_superuser = false)
    (hsu : s.is_superuser = true) (hsa : s.is_active = true) :
    jobAdmin_change_allowed e1 j = true
  ∧ jobAdmin_change_allowed e2 j = false
  ∧ jobAdmin_change_allowed s j = true
  ∧ jobUpdateView_in_queryset e1 j = true
  ∧ jobUpdateView_in_queryset e2 j = false := by
  refine ⟨?_, ?_, ?_, ?_, ?_⟩
  · simp [jobAdmin_change_allowed, jobAdmin_in_queryset,
          jobAdmin_has_change_permission, h1, hown]
  · simp [jobAdmin_change_allowed, jobAdmin_in_queryset, h2, hns,
          beq_iff_eq]
    intro hc
    exact absurd hc hnot
  · simp [jobAdmin_change_allowed, jobAdmin_in_queryset,
          jobAdmin_has_change_permission, has_perm, hsu, hsa]
  · simp [jobUpdateView_in_queryset, hown]
  · simp [jobUpdateView_in_queryset, beq_iff_eq]
    exact hnot

/-- Owning employer for the C2/C3 witnesses. -/
def wEmployer1 : User :=
  ⟨11, true, true, false, some ⟨("employer").toList⟩, [("Employers").toList]⟩

/-- Second, distinct employer for the C2 witness. -/
def wEmployer2 : User :=
  ⟨12, true, true, false, some ⟨("employer").toList⟩, [("Employers").toList]⟩

/-- Superuser for the C2/C3 witnesses. -/
def wSuperuser : User := ⟨1, true, true, true, none, []⟩

/-- A job owned (through acmeCompany2) by wEmployer1. -/
def wCompany : Company := ⟨2, ("Widget Inc").toList, 11⟩

/-- Concrete job for the C2 witness. -/
def wJob : Job :=
  { id := 9, company := wCompany, title := ("Backend Developer").toList
    description := ("Build services").toList
    location := ("Pune").toList, deadline := ⟨2026, 6, 1⟩ }

/-- Witness for C2 at concrete users and a concrete job. -/
theorem C2_job_edit_authorization_witness :
    jobAdmin_change_allowed wEmployer1 wJob = true
  ∧ jobAdmin_change_allowed wEmployer2 wJob = false
  ∧ jobAdmin_change_allowed wSuperuser wJob = true
  ∧ jobUpdateView_in_queryset wEmployer1 wJob = true
  ∧ jobUpdateView_in_queryset wEmployer2 wJob = false :=
  C2_job_edit_authorization wEmployer1 wEmployer2 wSuperuser wJob
    (by decide) (by decide) (by decide) (by decide) (by decide) (by decide)
    (by decide)

/-- C3: Application deletion in the admin.  ApplicationAdmin has no
owner branch in has_delete_permission: it delegates to
user.has_perm(jobs.delete_application), which the Employers group is never
granted, so the employer owning the parent Job is denied deletion while an
active superuser is allowed — unlike view and change, where the owner branch
grants the employer access. -/
theorem C3_application_delete_superuser_only (e s : User) (a : Application)
    (he : isEmployerUser e = true)
    (hgrp : e.groups.contains (("Employers").toList) = true)
    (hea : e.is_active = true) (hns : e.is_superuser = false)
    (hown : a.job.company.user = e.id)
    (hsu : s.is_superuser = true) (hsa : s.is_active = true) :
    applicationAdmin_has_delete_permission e a = false
  ∧ applicationAdmin_has_delete_permission s a = true
  ∧ applicationAdmin_has_view_permission e a = true
  ∧ applicationAdmin_has_change_permission e a = true := by
  have hdel : employersGroupPerms.contains (("jobs.delete_application").toList)
      = false := by decide
  refine ⟨?_, ?_, ?_, ?_⟩
  · simp [applicationAdmin_has_delete_permission, has_perm, hns, hdel]
    intro _ _
    decide
  · simp [applicationAdmin_has_delete_permission, has_perm, hsu, hsa]
  · simp [applicationAdmin_has_view_permission, he, hown]
  · simp [applicationAdmin_has_change_permission, he, hown]

/-- Application row for the C3 witness: its job's company belongs to
wEmployer1. -/
def wApplication : Application :=
  { id := 4, job := wJob, applicant := 21, resume := ("cv.pdf").toList
    cover_letter := [], status := ("applied").toList }

/-- Witness for C3 at a concrete employer, superuser and application. -/
theorem C3_application_delete_superuser_only_witness :
    applicationAdmin_has_delete_permission wEmployer1 wApplication = false
  ∧ applicationAdmin_has_delete_permission wSuperuser wApplication = true
  ∧ applicationAdmin_has_view_permission wEmployer1 wApplication = true
  ∧ applicationAdmin_has_change_permission wEmployer1 wApplication = true :=
  C3_application_delete_superuser_only wEmployer1 wSuperuser wApplication
    (by decide) (by decide) (by decide) (by decide) (by decide) (by decide)
    (by decide)

/-- Helper for C4: the employer profile test of mixins.py agrees with the
spec's role() returning employer. -/
theorem hasProfileType_employer_eq_roleOf (u : User) :
    hasProfileType u (("employer").toList)
      = (roleOfSpec u == some Role.employer) := by
  unfold hasProfileType roleOfSpec
  cases u.userprofile with
  | none => rfl
  | some p =>
    by_cases h1 : p.user_type = ("employer").toList <;>
      by_cases h2 : p.user_type = ("jobseeker").toList <;>
      simp_all

/-- Helper for C4: the jobseeker profile test of mixins.py agrees with the
spec's role() returning jobseeker. -/
theorem hasProfileType_jobseeker_eq_roleOf (u : User) :
    hasProfileType u (("jobseeker").toList)
      = (roleOfSpec u == some Role.jobseeker) := by
  unfold hasProfileType roleOfSpec
  cases u.userprofile with
  | none => rfl
  | some p =>
    by_cases h1 : p.user_type = ("employer").toList <;>
      by_cases h2 : p.user_type = ("jobseeker").toList <;>
      simp_all

/-- C4: every role-gated route fails closed.  Each of the four gates in
accounts/mixins.py (the two mixins and the two decorators) computes exactly
the spec's authorize_route decision for its required role: an
unauthenticated subject gets the RequireLogin outcome, an authenticated
subject whose role differs from the required one gets the distinct Forbidden
outcome, and only an authenticated subject with the required role passes. -/
theorem C4_route_gate_fails_closed (u : User) :
    employerRequiredMixin_dispatch u = authorize_route_spec u .employer
  ∧ employer_required_gate u = authorize_route_spec u .employer
  ∧ jobSeekerRequiredMixin_dispatch u = authorize_route_spec u .jobseeker
  ∧ jobseeker_required_gate u = authorize_route_spec u .jobseeker := by
  refine ⟨?_, ?_, ?_, ?_⟩
  · unfold employerRequiredMixin_dispatch authorize_route_spec
    rw [hasProfileType_employer_eq_roleOf]
  · unfold employer_required_gate authorize_route_spec
    rw [hasProfileType_employer_eq_roleOf]
  · unfold jobSeekerRequiredMixin_dispatch authorize_route_spec
    rw [hasProfileType_jobseeker_eq_roleOf]
  · unfold jobseeker_required_gate authorize_route_spec
    rw [hasProfileType_jobseeker_eq_roleOf]

/-- C7: viewing the inbox once marks every notification of the viewing user
as read and touches nothing else: after notificationList_visit db u, every
notification owned by u reports is_read = true, the notifications of every
other user are exactly as before (same rows, same order), and no row is
created or deleted. -/
theorem C7_inbox_view_marks_own_read_only (db : List JobAlertNotification)
    (u : Nat) :
    ((notificationList_visit db u).filter (fun n => n.user == u)).all
        (fun n => n.is_read) = true
  ∧ (notificationList_visit db u).filter (fun n => n.user != u)
      = db.filter (fun n => n.user != u)
  ∧ (notificationList_visit db u).length = db.length := by
  induction db with
  | nil => exact ⟨rfl, rfl, rfl⟩
  | cons n rest ih =>
    obtain ⟨ih1, ih2, ih3⟩ := ih
    refine ⟨?_, ?_, ?_⟩
    · by_cases h1 : n.user = u <;> by_cases h2 : n.is_read <;>
        simp [notificationList_visit, List.filter_cons, h1, h2] <;>
        simpa [notificationList_visit] using ih1
    · by_cases h1 : n.user = u <;> by_cases h2 : n.is_read <;>
        simp [notificationList_visit, List.filter_cons, h1, h2] <;>
        simpa [notificationList_visit] using ih2
    · simpa [notificationList_visit] using ih3

/-- C8: mark_notification_read verifies ownership.  The call succeeds
exactly when a notification with the given id owned by the calling user
exists (a missing id and someone else's notification are both reported as
NotFoundOrForbidden); on failure the store is completely unchanged; rows
other than the targeted one are never modified; and after a successful call
the targeted notification reports is_read = true. -/
theorem C8_mark_read_verifies_ownership (db : List JobAlertNotification)
    (u pk : Nat) :
    (mark_notification_read db u pk).1
      = (if db.any (fun n => n.id == pk && n.user == u) then .success
         else .notFoundOrForbidden)
  ∧ ((mark_notification_read db u pk).1 = MarkResult.success
      ∨ (mark_notification_read db u pk).2 = db)
  ∧ (mark_notification_read db u pk).2.filter
        (fun n => !(n.id == pk && n.user == u))
      = db.filter (fun n => !(n.id == pk && n.user == u))
  ∧ ((mark_notification_read db u pk).2.filter
        (fun n => n.id == pk && n.user == u)).all (fun n => n.is_read)
      = true := by
  have hid : ∀ n : JobAlertNotification, (markUpdate u pk n).id = n.id := by
    intro n
    unfold markUpdate
    by_cases h : (n.id == pk && n.user == u) = true
    · rw [if_pos h]
    · rw [if_neg h]
  have huser : ∀ n : JobAlertNotification, (markUpdate u pk n).user = n.user := by
    intro n
    unfold markUpdate
    by_cases h : (n.id == pk && n.user == u) = true
    · rw [if_pos h]
    · rw [if_neg h]
  have hread : ∀ n : JobAlertNotification,
      (n.id == pk && n.user == u) = true → (markUpdate u pk n).is_read = true := by
    intro n h
    unfold markUpdate
    rw [if_pos h]
  have hkeep : ∀ n : JobAlertNotification,
      (n.id == pk && n.user == u) = false → markUpdate u pk n = n := by
    intro n h
    unfold markUpdate
    rw [if_neg]
    simp [h]
  have hany : (db.find? (fun n => n.id == pk && n.user == u)).isSome
      = db.any (fun n => n.id == pk && n.user == u) := by
    induction db with
    | nil => rfl
    | cons n rest ih =>
      cases h : (n.id == pk && n.user == u) with
      | true => simp [List.find?_cons, List.any_cons, h]
      | false => simp [List.find?_cons, List.any_cons, h, ih]
  have hmapfilter :
      ∀ l : List JobAlertNotification,
        (l.map (markUpdate u pk)).filter (fun n => !(n.id == pk && n.user == u))
          = l.filter (fun n => !(n.id == pk && n.user == u)) := by
    intro l
    induction l with
    | nil => rfl
    | cons n rest ih =>
      rw [List.map_cons, List.filter_cons, List.filter_cons, hid, huser]
      cases h : (n.id == pk && n.user == u) with
      | true => simpa using ih
      | false =>
        rw [hkeep n h]
        simp only [h, Bool.not_false, if_pos]
        rw [ih]
  have hmapread :
      ∀ l : List JobAlertNotification,
        ((l.map (markUpdate u pk)).filter
            (fun n => n.id == pk && n.user == u)).all
          (fun n => n.is_read) = true := by
    intro l
    induction l with
    | nil => rfl
    | cons n rest ih =>
      rw [List.map_cons, List.filter_cons, hid, huser]
      cases h : (n.id == pk && n.user == u) with
      | true =>
        simp only [if_pos]
        rw [List.all_cons, hread n h, ih]
        rfl
      | false => simpa using ih
  have hnofind :
      ∀ l : List JobAlertNotification,
        l.find? (fun n => n.id == pk && n.user == u) = none →
          (l.filter (fun n => n.id == pk && n.user == u)).all
            (fun n => n.is_read) = true := by
    intro l
    induction l with
    | nil => intro _; rfl
    | cons n rest ih =>
      intro hf
      rw [List.find?_cons] at hf
      cases h : (n.id == pk && n.user == u) with
      | true => rw [h] at hf; exact absurd hf (by simp)
      | false =>
        rw [h] at hf
        rw [List.filter_cons, h]
        simpa using ih hf
  unfold mark_notification_read
  cases hf : db.find? (fun n => n.id == pk && n.user == u) with
  | none =>
    have ha : db.any (fun n => n.id == pk && n.user == u) = false := by
      rw [← hany, hf]
      rfl
    exact ⟨by simp [ha], Or.inr rfl, rfl, hnofind db hf⟩
  | some x =>
    have ha : db.any (fun n => n.id == pk && n.user == u) = true := by
      rw [← hany, hf]
      rfl
    exact ⟨by simp [ha], Or.inl rfl, hmapfilter db, hmapread db⟩

/-- Helper for C9: appending one application whose (job, applicant) pair is
absent preserves the unique-pair invariant. -/
theorem noDupApplications_append (apps : List Application) (a : Application)
    (h1 : noDupApplications apps = true)
    (h2 : apps.any (fun b => b.job.id == a.job.id && b.applicant == a.applicant)
      = false) :
    noDupApplications (apps ++ [a]) = true := by
  induction apps with
  | nil => simp [noDupApplications]
  | cons x rest ih =>
    rw [noDupApplications] at h1
    rw [List.any_cons] at h2
    rw [List.cons_append, noDupApplications, List.any_append]
    have hx : (x.job.id == a.job.id && x.applicant == a.applicant) = false := by
      cases hc : (x.job.id == a.job.id && x.applicant == a.applicant) with
      | false => rfl
      | true => rw [hc] at h2; exact absurd h2 (by simp)
    have hrest :
        rest.any (fun b => b.job.id == a.job.id && b.applicant == a.applicant)
          = false := by
      cases hc : rest.any
          (fun b => b.job.id == a.job.id && b.applicant == a.applicant) with
      | false => rfl
      | true => rw [hc] at h2; exact absurd h2 (by simp)
    have hxr : rest.any
        (fun b => b.job.id == x.job.id && b.applicant == x.applicant)
          = false := by
      cases hc : rest.any
          (fun b => b.job.id == x.job.id && b.applicant == x.applicant) with
      | false => rfl
      | true => rw [hc] at h1; exact absurd h1 (by simp)
    have hrd : noDupApplications rest = true := by
      cases hc : noDupApplications rest with
      | false => rw [hc] at h1; exact absurd h1 (by simp)
      | true => rfl
    have hsingle : ([a]).any
        (fun b => b.job.id == x.job.id && b.applicant == x.applicant)
          = false := by
      rw [List.any_cons, List.any_nil]
      cases hj : (a.job.id == x.job.id) with
      | false => simp [hj]
      | true =>
        cases hap : (a.applicant == x.applicant) with
        | false => simp [hj, hap]
        | true =>
          have hj2 : (x.job.id == a.job.id) = true := by
            simp only [beq_iff_eq] at hj ⊢
            exact hj.symm
          have hap2 : (x.applicant == a.applicant) = true := by
            simp only [beq_iff_eq] at hap ⊢
            exact hap.symm
          rw [hj2, hap2] at hx
          exact absurd hx (by simp)
    rw [hxr, hsingle, ih hrd hrest]
    rfl

/-- Helper for C9: apply_for_job preserves the unique (job, applicant)
invariant on every path — the only path that inserts a row first checks
that no application for the pair exists. -/
theorem apply_for_job_preserves_noDup (jobs : List Job)
    (apps : List Application) (u pk : Nat) (today : PyDate) (fv : Bool)
    (resume cover : List Char) (nid : Nat)
    (hnd : noDupApplications apps = true) :
    noDupApplications
      (apply_for_job jobs apps u pk today fv resume cover nid).2 = true := by
  unfold apply_for_job
  cases hj : jobs.find? (fun j => j.id == pk) with
  | none => exact hnd
  | some job =>
    dsimp only
    cases hact : jobIsActive job today with
    | false =>
      rw [if_pos (by simp [hact])]
      exact hnd
    | true =>
      rw [if_neg (by simp [hact])]
      cases hdup : apps.any (fun a => a.job.id == job.id && a.applicant == u) with
      | true =>
        rw [if_pos rfl]
        exact hnd
      | false =>
        rw [if_neg (by simp)]
        cases fv with
        | false =>
          rw [if_neg (by simp)]
          exact hnd
        | true =>
          rw [if_pos rfl]
          exact noDupApplications_append apps _ hnd hdup

/-- C9: at most one Application per (Job, User) pair.  When the job exists
and is active and an application for the pair is already present, a second
apply is reported as alreadyApplied and inserts nothing, and the
unique-pair invariant of Application.Meta.unique_together is preserved by
apply_for_job on every input. -/
theorem C9_no_duplicate_application (jobs : List Job)
    (apps : List Application) (u pk : Nat) (today : PyDate)
    (formValid : Bool) (resume cover : List Char) (nextId : Nat) (job : Job)
    (hfind : jobs.find? (fun j => j.id == pk) = some job)
    (hactive : jobIsActive job today = true)
    (hdup : apps.any (fun a => a.job.id == job.id && a.applicant == u) = true) :
    (apply_for_job jobs apps u pk today formValid resume cover nextId).1
      = ApplyResult.alreadyApplied
  ∧ (apply_for_job jobs apps u pk today formValid resume cover nextId).2
      = apps
  ∧ (∀ apps2 fv2 nid2, noDupApplications apps2 = true →
      noDupApplications
        (apply_for_job jobs apps2 u pk today fv2 resume cover nid2).2
        = true) := by
  refine ⟨?_, ?_, ?_⟩
  · simp [apply_for_job, hfind, hactive, hdup]
  · simp [apply_for_job, hfind, hactive, hdup]
  · intro apps2 fv2 nid2 hnd
    exact apply_for_job_preserves_noDup jobs apps2 u pk today fv2 resume
      cover nid2 hnd

/-- Job table for the C9 witness. -/
def wJobs : List Job := [wJob]

/-- Existing application of applicant 21 for wJob (id 9). -/
def wApps : List Application := [wApplication]

/-- Witness for C9: with wApplication already stored, a second apply by
user 21 for job 9 is reported as alreadyApplied, changes nothing, and the
unique-pair invariant holds afterwards. -/
theorem C9_no_duplicate_application_witness :
    (apply_for_job wJobs wApps 21 9 ⟨2026, 1, 1⟩ true (("cv.pdf").toList)
        [] 5).1 = ApplyResult.alreadyApplied
  ∧ (apply_for_job wJobs wApps 21 9 ⟨2026, 1, 1⟩ true (("cv.pdf").toList)
        [] 5).2 = wApps
  ∧ noDupApplications
      (apply_for_job wJobs wApps 21 9 ⟨2026, 1, 1⟩ true (("cv.pdf").toList)
        [] 5).2 = true := by
  have h := C9_no_duplicate_application wJobs wApps 21 9 ⟨2026, 1, 1⟩ true
    (("cv.pdf").toList) [] 5 wJob (by decide) (by decide) (by decide)
  exact ⟨h.1, h.2.1, h.2.2 wApps true 5 (by decide)⟩

/-- Helper for C10: strict date order is transitive. -/
theorem dateLt_trans (a b c : PyDate) (h1 : dateLt a b = true)
    (h2 : dateLt b c = true) : dateLt a c = true := by
  cases a with
  | mk ay am ad =>
    cases b with
    | mk byr bm bd =>
      cases c with
      | mk cy cm cd =>
        simp only [dateLt, Bool.or_eq_true, Bool.and_eq_true,
          decide_eq_true_eq, beq_iff_eq] at h1 h2 ⊢
        omega

/-- C10 counterexample: the claim says any deadline more than two years
after the current date is rejected as a ValidationFailure, for every
current date.  When today is Feb 29 (a real calendar date, e.g.
2024-02-29), date.replace(year=year+2) raises ValueError — year+2 is never
a leap year — and the form machinery catches only ValidationError, so the
strictly-future, far-too-late deadline 2028-01-01 produces an unhandled
exception rather than the claimed ValidationFailure. -/
theorem C10_leap_day_crash_counterexample :
    clean_deadline ⟨2024, 2, 29⟩ ⟨2028, 1, 1⟩ = CleanDeadlineResult.valueError
  ∧ clean_deadline ⟨2024, 2, 29⟩ ⟨2028, 1, 1⟩
      ≠ CleanDeadlineResult.validationError errDeadlineTooFar
  ∧ dateLt ⟨2024, 2, 29⟩ ⟨2028, 1, 1⟩ = true := by
  decide

/-- C10 (amended): whenever the two-year anniversary of the current date
exists (today is not Feb 29, so date.replace(year+2) returns a date), any
deadline strictly beyond that anniversary is rejected with the two-year
ValidationError even though it lies strictly in the future, and in
addition every deadline not strictly in the future is rejected with the
must-be-future ValidationError; on a Feb 29 today the cap computation
instead raises an uncaught ValueError (see the counterexample). -/
theorem C10_deadline_two_year_cap (today d maxD : PyDate)
    (hrep : dateReplaceYear today (today.year + 2) = some maxD)
    (h : dateLt maxD d = true) :
    clean_deadline today d
        = CleanDeadlineResult.validationError errDeadlineTooFar
  ∧ dateLt today d = true
  ∧ (∀ d2 : PyDate, dateLe d2 today = true →
      clean_deadline today d2
        = CleanDeadlineResult.validationError errDeadlinePast) := by
  have hmax : maxD = ⟨today.year + 2, today.month, today.day⟩ := by
    unfold dateReplaceYear at hrep
    by_cases hc : today.day ≤ daysInMonth (today.year + 2) today.month
    · rw [if_pos hc] at hrep
      exact (Option.some_inj.mp hrep).symm
    · rw [if_neg hc] at hrep
      exact absurd hrep (by simp)
  have hlt : dateLt today maxD = true := by
    rw [hmax]
    cases today with
    | mk y m dd => simp [dateLt]
  have hfut : dateLt today d = true := dateLt_trans today maxD d hlt h
  have hnle : dateLe d today = false := by
    cases hc : dateLe d today with
    | false => rfl
    | true =>
      rw [dateLe, Bool.or_eq_true] at hc
      cases today with
      | mk y m dd =>
        cases d with
        | mk y2 m2 d2 =>
          simp only [dateLt, Bool.or_eq_true, Bool.and_eq_true,
            decide_eq_true_eq, beq_iff_eq, PyDate.mk.injEq] at hc hfut
          rcases hc with hlt2 | heq
          · omega
          · omega
  refine ⟨?_, hfut, ?_⟩
  · unfold clean_deadline
    rw [if_neg (by simp [hnle]), hrep]
    dsimp only
    rw [if_pos h]
  · intro d2 hle
    unfold clean_deadline
    rw [hle]
    rfl

/-- Witness for C10 at concrete dates: from 2025-10-12 the two-year
anniversary 2027-10-12 exists, 2028-01-01 is strictly future yet rejected
by the cap, and the past date 2025-01-01 is rejected as not in the
future. -/
theorem C10_deadline_two_year_cap_witness :
    clean_deadline ⟨2025, 10, 12⟩ ⟨2028, 1, 1⟩
        = CleanDeadlineResult.validationError errDeadlineTooFar
  ∧ dateLt ⟨2025, 10, 12⟩ ⟨2028, 1, 1⟩ = true
  ∧ clean_deadline ⟨2025, 10, 12⟩ ⟨2025, 1, 1⟩
        = CleanDeadlineResult.validationError errDeadlinePast := by
  have h := C10_deadline_two_year_cap ⟨2025, 10, 12⟩ ⟨2028, 1, 1⟩
    ⟨2027, 10, 12⟩ (by decide) (by decide)
  exact ⟨h.1, h.2.1, h.2.2 ⟨2025, 1, 1⟩ (by decide)⟩

end JobBoard
